import Mathlib

/-!
Shallow embedding of the smartvns-sdk device-control layer.

Python strings are modelled as lists of characters (`PyStr`), bytes as
lists of naturals below 256.  The serial SMP transport, the BLE transport
and the device firmware are external collaborators; they are modelled by
explicit behavior functions (`Request → SMPResponse`) and the routines of
`smartvns_cli/usb_ctrl/routines.py`, `smartvns_cli/usb_ctrl/controller.py`
and `smartvns/vnsconnect/_vnsconnect.py` are translated over them.
-/

/-- Python strings are modelled as lists of characters. -/
abbrev PyStr := List Char

/-- Shorthand turning a Lean string literal into the `PyStr` model. -/
def toL (s : String) : PyStr := s.toList

/-- Characters removed by the Python `str.strip()` default whitespace set. -/
def isPySpace (c : Char) : Bool :=
  c = ' ' || c = '\t' || c = '\n' || c = '\r' || c = '\x0b' || c = '\x0c'

/-- Python `str.strip()`: drop whitespace from the front and from the back. -/
def pyStrip (s : PyStr) : PyStr :=
  ((s.dropWhile isPySpace).reverse.dropWhile isPySpace).reverse

/-- Helper used by `pyInt`: accumulate decimal digits, failing on a non-digit. -/
def digitsToNatAux : Nat → List Char → Option Nat
  | acc, [] => some acc
  | acc, c :: cs =>
      if c.isDigit then digitsToNatAux (acc * 10 + (c.toNat - 48)) cs
      else none

/-- Python `int(str)`: optional sign, at least one decimal digit, surrounding
whitespace allowed.  `none` models the `ValueError` raise. -/
def pyInt (s : PyStr) : Option Int :=
  match pyStrip s with
  | [] => none
  | '-' :: rest =>
      match rest with
      | [] => none
      | _ => (digitsToNatAux 0 rest).map (fun n => -(n : Int))
  | '+' :: rest =>
      match rest with
      | [] => none
      | _ => (digitsToNatAux 0 rest).map (fun n => (n : Int))
  | l => (digitsToNatAux 0 l).map (fun n => (n : Int))

/-- The standard base64 alphabet used by `base64.b64encode`. -/
def b64alphabet : List Char :=
  toL "ABCDEFGHIJKLMNOPQRSTUVWXYZabcdefghijklmnopqrstuvwxyz0123456789+/"

/-- Table lookup of the base64 alphabet (out-of-range defaults never arise
for 6-bit values). -/
def b64char (n : Nat) : Char := (b64alphabet.get? n).getD 'A'

/-- Position of a character in the base64 alphabet, `none` for characters
outside the alphabet. -/
def b64index (c : Char) : Option Nat := b64alphabet.findIdx? (fun x => x = c)

/-- Python `base64.b64encode` over bytes: three input bytes become four
alphabet characters, a trailing group of one or two bytes is padded with
`=`. -/
def b64encode : List Nat → List Char
  | [] => []
  | [a] => [b64char (a / 4), b64char (a % 4 * 16), '=', '=']
  | [a, b] => [b64char (a / 4), b64char (a % 4 * 16 + b / 16), b64char (b % 16 * 4), '=']
  | a :: b :: c :: rest =>
      b64char (a / 4) :: b64char (a % 4 * 16 + b / 16) ::
      b64char (b % 16 * 4 + c / 64) :: b64char (c % 64) :: b64encode rest

/-- Python `base64.b64decode` over text: groups of four characters, padding
allowed only in the final group; any malformed input fails (the
`binascii.Error` raise). -/
def b64decode : List Char → Option (List Nat)
  | [] => some []
  | c1 :: c2 :: c3 :: c4 :: rest =>
      match b64index c1, b64index c2 with
      | some a, some b =>
          if c3 = '=' then
            if c4 = '=' ∧ rest = [] then some [a * 4 + b / 16] else none
          else
            match b64index c3 with
            | some c =>
                if c4 = '=' then
                  if rest = [] then some [a * 4 + b / 16, b % 16 * 16 + c / 4] else none
                else
                  match b64index c4, b64decode rest with
                  | some d, some ds =>
                      some ((a * 4 + b / 16) :: (b % 16 * 16 + c / 4) :: (c % 4 * 64 + d) :: ds)
                  | _, _ => none
            | none => none
      | _, _ => none
  | _ => none

/-!
SMP layer.

`smpclient` request objects are modelled by `Request`; the outcome of
`await dev.request(...)` on a reachable transport is an SMP management
response, either a success carrying the shell output text `o`
(`success(response)` true) or an SMP error response with a return code
(`error(response)` true).
-/

/-- Exceptions that the embedded code can raise. -/
inductive Exn
  | connectFailed (code : Nat)
  | valueError
  | binasciiError
deriving DecidableEq

/-- Requests issued through `SMPClient.request` by the routines. -/
inductive Request
  | execute (argv : List PyStr)
  | resetWrite
  | eraseStorage
  | uploadImage (image : List Nat)
deriving DecidableEq

/-- Outcome of one SMP request against a reachable device. -/
inductive SMPResponse
  | ok (o : PyStr)
  | err (rc : Nat)
deriving DecidableEq

/-- A serial-attached device, modelled by how its firmware answers each
request (external collaborator). -/
structure Device where
  respond : Request → SMPResponse

/-- Log events emitted by the routines; application-level errors carry the
shell output text, transport-level errors carry the SMP error response
code, so the two are reported distinctly. -/
inductive LogE
  | info (msg : PyStr)
  | appError (diag : PyStr)
  | transportError (rc : Nat)
  | opError (msg : PyStr)
deriving DecidableEq

/-- Result of running one routine against a device: the returned value, the
requests issued to the device, and the log events emitted. -/
structure RoutineRun (α : Type) where
  result : α
  issued : List Request
  logs : List LogE
deriving DecidableEq

/-! Routines of `src/smartvns_cli/usb_ctrl/routines.py`. -/

/-- `shell_ok` (routines.py lines 16-17): response.startswith("OK:"). -/
def shell_ok (response : PyStr) : Bool :=
  match response with
  | 'O' :: 'K' :: ':' :: _ => true
  | _ => false

/-- `routine_get_oob_key` (routines.py lines 39-51). -/
def routine_get_oob_key (dev : Device) : RoutineRun (Option PyStr) :=
  let req := Request.execute [toL "bond", toL "get"]
  match dev.respond req with
  | SMPResponse.ok o =>
      let output := pyStrip o
      if shell_ok output then
        ⟨some (pyStrip (output.drop 4)), [req], [LogE.info (toL "Key received")]⟩
      else
        ⟨none, [req], [LogE.appError output]⟩
  | SMPResponse.err _ => ⟨none, [req], []⟩

/-- `routine_set_oob_key` (routines.py lines 54-68). -/
def routine_set_oob_key (dev : Device) (key : PyStr) : RoutineRun Bool :=
  let req := Request.execute [toL "bond", toL "set", toL "vns", key]
  match dev.respond req with
  | SMPResponse.err rc => ⟨false, [req], [LogE.transportError rc]⟩
  | SMPResponse.ok o =>
      let output := pyStrip o
      if shell_ok output then ⟨true, [req], []⟩
      else ⟨false, [req], [LogE.appError output]⟩

/-- `routine_del_oob_key` (routines.py lines 71-85). -/
def routine_del_oob_key (dev : Device) : RoutineRun Bool :=
  let req := Request.execute [toL "bond", toL "del", toL "vns"]
  match dev.respond req with
  | SMPResponse.err rc => ⟨false, [req], [LogE.transportError rc]⟩
  | SMPResponse.ok o =>
      let output := pyStrip o
      if shell_ok output then ⟨true, [req], []⟩
      else ⟨false, [req], [LogE.appError output]⟩

/-- `routine_reboot` (routines.py lines 88-95). -/
def routine_reboot (dev : Device) : RoutineRun Bool :=
  let req := Request.resetWrite
  match dev.respond req with
  | SMPResponse.err rc => ⟨false, [req], [LogE.transportError rc]⟩
  | SMPResponse.ok _ => ⟨true, [req], []⟩

/-- `routine_set_bootmode` (routines.py lines 109-120). -/
def routine_set_bootmode (dev : Device) : RoutineRun Bool :=
  let req := Request.execute [toL "dfu"]
  match dev.respond req with
  | SMPResponse.err rc => ⟨false, [req], [LogE.transportError rc]⟩
  | SMPResponse.ok _ => ⟨true, [req], []⟩

/-- `routine_get_battery` (routines.py lines 192-203); the `int()`
conversion of the payload raises `ValueError` on non-digit text, modelled
by `Except.error`. -/
def routine_get_battery (dev : Device) : RoutineRun (Except Exn (Option Int)) :=
  let req := Request.execute [toL "batt"]
  match dev.respond req with
  | SMPResponse.err rc => ⟨Except.ok none, [req], [LogE.transportError rc]⟩
  | SMPResponse.ok o =>
      let output := pyStrip o
      if shell_ok output then
        match pyInt (output.drop 4) with
        | some n => ⟨Except.ok (some n), [req], []⟩
        | none => ⟨Except.error Exn.valueError, [req], []⟩
      else ⟨Except.ok none, [req], []⟩

/-- `routine_get_version` (routines.py lines 206-217). -/
def routine_get_version (dev : Device) : RoutineRun (Option PyStr) :=
  let req := Request.execute [toL "version"]
  match dev.respond req with
  | SMPResponse.err rc => ⟨none, [req], [LogE.transportError rc]⟩
  | SMPResponse.ok o =>
      let output := pyStrip o
      if shell_ok output then ⟨some (output.drop 4), [req], []⟩
      else ⟨none, [req], []⟩

/-- `routine_get_config` (routines.py lines 140-162).  The protobuf codec is
an external collaborator, so the parsed configuration value is carried as
its byte payload; a `base64.b64decode` failure raises `binascii.Error`,
modelled by `Except.error`. -/
def routine_get_config (dev : Device) (cfg_type : PyStr) :
    RoutineRun (Except Exn (Option (List Nat))) :=
  let req := Request.execute [toL "cfg", toL "get", cfg_type]
  match dev.respond req with
  | SMPResponse.err rc => ⟨Except.ok none, [req], [LogE.transportError rc]⟩
  | SMPResponse.ok o =>
      let output := pyStrip o
      if shell_ok output then
        match b64decode (output.drop 4) with
        | some data => ⟨Except.ok (some data), [req], []⟩
        | none => ⟨Except.error Exn.binasciiError, [req], []⟩
      else ⟨Except.ok none, [req], [LogE.appError output]⟩

/-- `routine_set_config` (routines.py lines 165-189).  The configuration
value is carried as its serialized bytes (`value.SerializeToString()`,
codec external); the payload is base64-encoded before transmission. -/
def routine_set_config (dev : Device) (cfg_type : PyStr) (serialized : List Nat) :
    RoutineRun Bool :=
  let b64 := b64encode serialized
  let req := Request.execute [toL "cfg", toL "set", cfg_type, b64]
  match dev.respond req with
  | SMPResponse.ok o =>
      let output := pyStrip o
      if shell_ok output then
        ⟨true, [req], [LogE.info (toL "Config set successfully")]⟩
      else ⟨false, [req], [LogE.appError output]⟩
  | SMPResponse.err rc => ⟨false, [req], [LogE.transportError rc]⟩

/-!
Controller layer, `src/smartvns_cli/usb_ctrl/controller.py`.

`asyncio.gather` over per-device computations returns the results in the
order of its arguments; with `return_exceptions` left at `False`, a raised
exception propagates instead of a result list.  Since each computation here
touches only its own device, the concurrent execution is determinized to
the argument order, the propagated exception being the first failing slot.
-/

/-- Determinization of `asyncio.gather`: results in argument order, the
first failure (in argument order) propagates. -/
def gatherE {ε α : Type} : List (Except ε α) → Except ε (List α)
  | [] => Except.ok []
  | x :: xs =>
      match x with
      | Except.error e => Except.error e
      | Except.ok a =>
          match gatherE xs with
          | Except.error e => Except.error e
          | Except.ok as => Except.ok (a :: as)

/-- One serial port: the outcome of `SMPClient.connect()` for the device on
that port (an exception on failure) and the connected device itself. -/
structure PortDevice where
  connectResult : Except Exn Unit
  dev : Device

/-- `get_battery` (controller.py lines 96-103): connect all devices, then
gather `routine_get_battery` over all of them. -/
def get_battery (env : PyStr → PortDevice) (ports : List PyStr) :
    Except Exn (List (Option Int)) :=
  match gatherE (ports.map (fun p => (env p).connectResult)) with
  | Except.error e => Except.error e
  | Except.ok _ => gatherE (ports.map (fun p => (routine_get_battery (env p).dev).result))

/-- `get_version` (controller.py lines 106-113); `routine_get_version`
cannot raise, so its gather is the ordered list of slot results. -/
def get_version (env : PyStr → PortDevice) (ports : List PyStr) :
    Except Exn (List (Option PyStr)) :=
  match gatherE (ports.map (fun p => (env p).connectResult)) with
  | Except.error e => Except.error e
  | Except.ok _ => Except.ok (ports.map (fun p => (routine_get_version (env p).dev).result))

/-- Observable outcome of `pair` (controller.py lines 16-33): the requests
issued to each of the two devices and the log events emitted. -/
structure PairOutcome where
  issued1 : List Request
  issued2 : List Request
  logs : List LogE
deriving DecidableEq

/-- `pair` (controller.py lines 16-33): fetch the OOB key of both devices;
if either fetch yields `None`, log an error and return; otherwise write
each key to the opposite device, discarding the boolean write results. -/
def pair (dev1 dev2 : Device) : PairOutcome :=
  let r1 := routine_get_oob_key dev1
  let r2 := routine_get_oob_key dev2
  match r1.result, r2.result with
  | some k1, some k2 =>
      let w1 := routine_set_oob_key dev1 k2
      let w2 := routine_set_oob_key dev2 k1
      { issued1 := r1.issued ++ w1.issued
        issued2 := r2.issued ++ w2.issued
        logs := r1.logs ++ r2.logs ++ w1.logs ++ w2.logs }
  | _, _ =>
      { issued1 := r1.issued
        issued2 := r2.issued
        logs := r1.logs ++ r2.logs ++ [LogE.opError (toL "Failed to get keys")] }

/-- Device-convention key store (modelled external collaborator): a device
mutates its stored key material only when it receives a `bond set` or
`bond del` request and answers it with an `OK:` response. -/
def keyStep (behavior : Request → SMPResponse) (key : Option PyStr) (r : Request) :
    Option PyStr :=
  match r with
  | Request.execute [c, s, _, k] =>
      if c = toL "bond" && s = toL "set" then
        match behavior r with
        | SMPResponse.ok o => if shell_ok (pyStrip o) then some k else key
        | SMPResponse.err _ => key
      else key
  | Request.execute [c, s, _] =>
      if c = toL "bond" && s = toL "del" then
        match behavior r with
        | SMPResponse.ok o => if shell_ok (pyStrip o) then none else key
        | SMPResponse.err _ => key
      else key
  | _ => key

/-- Stored key material of a device after it served a list of requests. -/
def keyAfter (behavior : Request → SMPResponse) (key : Option PyStr)
    (rs : List Request) : Option PyStr :=
  rs.foldl (keyStep behavior) key

/-- Whether a request is a key write (`bond set ...`). -/
def isKeyWrite : Request → Bool
  | Request.execute (c :: s :: _) => c = toL "bond" && s = toL "set"
  | _ => false

/-!
DFU sequencer, `dfu` (controller.py lines 77-93).

The observable behavior is the ordered event trace: each
`asyncio.gather(*(... for dev in devs))` issues one operation per device
(determinized to port order), and `time.sleep(5)` is a single blocking
pause between the reboot phase and the bootloader reconnect phase.
-/

/-- Events of the DFU sequence. -/
inductive DfuEv
  | connect (port : PyStr)
  | shellCmd (port : PyStr) (cmd : PyStr)
  | reboot (port : PyStr)
  | sleepSec (s : Nat)
  | uploadTo (port : PyStr) (image : List Nat)
deriving DecidableEq

/-- Trace of `dfu`: connect all, issue the `dfu` (enter-bootloader) shell
command to all, reboot all, sleep 5 seconds once, reconnect all, upload the
image to all, reboot all. -/
def dfuTrace (ports : List PyStr) (image : List Nat) : List DfuEv :=
  (ports.map DfuEv.connect) ++
  (ports.map (fun p => DfuEv.shellCmd p (toL "dfu"))) ++
  (ports.map DfuEv.reboot) ++
  [DfuEv.sleepSec 5] ++
  (ports.map DfuEv.connect) ++
  (ports.map (fun p => DfuEv.uploadTo p image)) ++
  (ports.map DfuEv.reboot)

/-- Whether a DFU event is the batch settle pause. -/
def isSleepEv : DfuEv → Bool
  | DfuEv.sleepSec _ => true
  | _ => false

/-- Whether a DFU event is a firmware upload. -/
def isUploadEv : DfuEv → Bool
  | DfuEv.uploadTo _ _ => true
  | _ => false

/-!
BLE layer, `src/smartvns/vnsconnect/_vnsconnect.py`.
-/

/-- Python-level errors raised by the LoopRunner model. -/
inductive PyError
  | runtimeLoopClosed
  | runtimeLoopNotRunning
deriving DecidableEq

/-- Lifecycle phase of the LoopRunner background event loop: running after
construction; once `terminate` completes, `run_forever` has returned, the
`_runner` thread has closed the loop and exited (the `join` waits for
that), so the loop is closed. -/
inductive LoopPhase
  | running
  | closed
deriving DecidableEq

/-- State of a `LoopRunner`. -/
structure RunnerState where
  phase : LoopPhase
deriving DecidableEq

/-- `LoopRunner.terminate` (lines 67-71): `call_soon_threadsafe(stop)` then
`join`.  asyncio semantics: `call_soon_threadsafe` on a closed loop raises
`RuntimeError("Event loop is closed")`; on a running loop the scheduled
`stop` makes `run_forever` return, `_runner` (lines 51-65) closes the loop,
and the join completes. -/
def LoopRunner_terminate (st : RunnerState) : Except PyError RunnerState :=
  match st.phase with
  | LoopPhase.closed => Except.error PyError.runtimeLoopClosed
  | LoopPhase.running => Except.ok { phase := LoopPhase.closed }

/-- Outcome of the i-th `self.run(connect_async(self._client))` call inside
`VNSDevice.connect`: either the attempt connects or it raises a transport
error.  Supplied as an external attempt behavior. -/
def connectFrom (attempt : Nat → Except Exn Unit) : Nat → Nat → Except Exn Unit
  | _, 0 => Except.ok ()
  | i, Nat.succ k =>
      match attempt i with
      | Except.error e => Except.error e
      | Except.ok _ => connectFrom attempt (i + 1) k

/-- `VNSDevice.connect` (lines 204-230): `for _ in range(retries):
self.run(connect_async(self._client), timeout=run_timeout)` — each loop
iteration runs one connect attempt, and a raised error propagates out of
the loop at once. -/
def VNSDevice_connect (attempt : Nat → Except Exn Unit) (retries : Nat) :
    Except Exn Unit :=
  connectFrom attempt 0 retries

/-- Number of connect attempts actually issued by `VNSDevice.connect`. -/
def connectCallsFrom (attempt : Nat → Except Exn Unit) : Nat → Nat → Nat
  | _, 0 => 0
  | i, Nat.succ k =>
      match attempt i with
      | Except.error _ => 1
      | Except.ok _ => 1 + connectCallsFrom attempt (i + 1) k

/-- Stimulation configuration (protobuf message `StimConfig`; the codec is
an external collaborator, the fields are those documented in
`smartvns/config/__init__.py`). -/
structure StimConfig where
  retain_cfg : Bool
  trigger_ms : Int
  forward_us : Int
  deadband_us : Int
  period_us : Int
  intensity_uA : Int
deriving DecidableEq

/-- A connected stimulator device holding its current stimulation
configuration behind the STIM characteristic. -/
structure StimDevice where
  cfg : StimConfig
deriving DecidableEq

/-- `Stimulator.get_stim_config` (lines 347-360): read the STIM
characteristic and parse it (serialize/parse round trip through the
external codec is the identity). -/
def get_stim_config (d : StimDevice) : StimConfig := d.cfg

/-- `Stimulator.set_stim_config` (lines 362-378): serialize and write the
configuration to the STIM characteristic. -/
def set_stim_config (d : StimDevice) (c : StimConfig) : StimDevice :=
  { d with cfg := c }

/-- `Stimulator.trigger` (lines 410-424): read the current configuration,
overwrite its `trigger_ms` field, write it back. -/
def Stimulator_trigger (d : StimDevice) (duration_ms : Int) : StimDevice :=
  let cfg := get_stim_config d
  let cfg2 := { cfg with trigger_ms := duration_ms }
  set_stim_config d cfg2

/-- Decidable equality for `Except`, used to evaluate routine results on
concrete inputs. -/
instance {ε α : Type} [DecidableEq ε] [DecidableEq α] : DecidableEq (Except ε α) := fun a b =>
  match a, b with
  | Except.error e, Except.error f => decidable_of_iff (e = f) (by simp)
  | Except.error _, Except.ok _ => Decidable.isFalse (by simp)
  | Except.ok _, Except.error _ => Decidable.isFalse (by simp)
  | Except.ok x, Except.ok y => decidable_of_iff (x = y) (by simp)

/-- A device whose shell answers every request with the body `OK:42`. -/
def devOK42 : Device := ⟨fun _ => SMPResponse.ok (toL "OK:42")⟩

/-- A device that acknowledges every request with an `OK:` body. -/
def devAck : Device := ⟨fun _ => SMPResponse.ok (toL "OK: done")⟩

/-- A device whose transport answers every request with an SMP error. -/
def devErr : Device := ⟨fun _ => SMPResponse.err 3⟩

/-- A device holding OOB key `KEY1` and acknowledging writes. -/
def devKey1 : Device := ⟨fun _ => SMPResponse.ok (toL "OK: KEY1")⟩

/-- A device holding OOB key `KEY2` and acknowledging writes. -/
def devKey2 : Device := ⟨fun _ => SMPResponse.ok (toL "OK: KEY2")⟩

/-- An environment in which every port fails to connect. -/
def envConnFail : PyStr → PortDevice :=
  fun _ => { connectResult := Except.error (Exn.connectFailed 2), dev := devOK42 }

/-- An attempt behavior whose first connect attempt raises and whose second
attempt would succeed. -/
def flakyAttempt : Nat → Except Exn Unit :=
  fun i => if i = 0 then Except.error (Exn.connectFailed 7) else Except.ok ()

/-- A device answering every request with the application-failure body
`ERR bad arg` on a successful transport. -/
def devErrBody : Device := ⟨fun _ => SMPResponse.ok (toL "ERR bad arg")⟩

/-- A two-port environment where both devices connect, the first reports
battery body `OK: 2` and the second reports the failure body. -/
def envTwo : PyStr → PortDevice :=
  fun p =>
    if p = toL "p0" then
      { connectResult := Except.ok (), dev := ⟨fun _ => SMPResponse.ok (toL "OK: 2")⟩ }
    else
      { connectResult := Except.ok (), dev := devErrBody }

lemma b64index_b64char : ∀ n, n < 64 → b64index (b64char n) = some n := by decide

lemma b64alphabet_no_pad : ∀ c ∈ b64alphabet, c ≠ '=' := by decide

lemma b64alphabet_no_space : ∀ c ∈ b64alphabet, isPySpace c = false := by decide

lemma b64char_ne_pad (n : Nat) : b64char n ≠ '=' := by
  unfold b64char
  cases h : b64alphabet.get? n with
  | none => simp
  | some c =>
      have hc : c ∈ b64alphabet := List.get?_mem h
      simpa using b64alphabet_no_pad c hc

lemma b64char_not_space (n : Nat) : isPySpace (b64char n) = false := by
  unfold b64char
  cases h : b64alphabet.get? n with
  | none => simp; decide
  | some c =>
      have hc : c ∈ b64alphabet := List.get?_mem h
      simpa using b64alphabet_no_space c hc

/-- Every character produced by `b64encode` is a base64 alphabet character
or the padding character, hence never whitespace. -/
lemma b64encode_not_space (bs : List Nat) : ∀ c ∈ b64encode bs, isPySpace c = false := by
  match bs with
  | [] => intro c hc; simp [b64encode] at hc
  | [a] =>
      intro c hc
      simp only [b64encode, List.mem_cons, List.mem_singleton] at hc
      rcases hc with h | h | h | h | h
      all_goals first
        | (subst h; exact b64char_not_space _)
        | (subst h; decide)
        | cases h
  | [a, b] =>
      intro c hc
      simp only [b64encode, List.mem_cons, List.mem_singleton] at hc
      rcases hc with h | h | h | h | h
      all_goals first
        | (subst h; exact b64char_not_space _)
        | (subst h; decide)
        | cases h
  | a :: b :: c' :: rest =>
      intro c hc
      simp only [b64encode, List.mem_cons] at hc
      rcases hc with h | h | h | h | h
      · subst h; exact b64char_not_space _
      · subst h; exact b64char_not_space _
      · subst h; exact b64char_not_space _
      · subst h; exact b64char_not_space _
      · exact b64encode_not_space rest c h

/-- Round trip: decoding an encoded byte list recovers the bytes, for byte
values below 256. -/
lemma b64_roundtrip (bs : List Nat) (h : ∀ b ∈ bs, b < 256) :
    b64decode (b64encode bs) = some bs := by
  match bs with
  | [] => rfl
  | [a] =>
      have ha : a < 256 := h a (by simp)
      have h1 : b64index (b64char (a / 4)) = some (a / 4) :=
        b64index_b64char _ (by omega)
      have h2 : b64index (b64char (a % 4 * 16)) = some (a % 4 * 16) :=
        b64index_b64char _ (by omega)
      simp only [b64encode, b64decode, h1, h2, if_pos rfl]
      simp only [and_self, if_true, Option.some.injEq, List.cons.injEq, and_true]
      omega
  | [a, b] =>
      have ha : a < 256 := h a (by simp)
      have hb : b < 256 := h b (by simp)
      have h1 : b64index (b64char (a / 4)) = some (a / 4) :=
        b64index_b64char _ (by omega)
      have h2 : b64index (b64char (a % 4 * 16 + b / 16)) = some (a % 4 * 16 + b / 16) :=
        b64index_b64char _ (by omega)
      have h3 : b64index (b64char (b % 16 * 4)) = some (b % 16 * 4) :=
        b64index_b64char _ (by omega)
      have hne : ¬(b64char (b % 16 * 4) = '=') := b64char_ne_pad _
      simp only [b64encode, b64decode, h1, h2, h3, hne, if_false, if_pos rfl]
      simp only [if_true, Option.some.injEq, List.cons.injEq, and_true]
      constructor
      · omega
      · omega
  | a :: b :: c :: rest =>
      have ha : a < 256 := h a (by simp)
      have hb : b < 256 := h b (by simp)
      have hc : c < 256 := h c (by simp)
      have ih : b64decode (b64encode rest) = some rest :=
        b64_roundtrip rest (by intro x hx; exact h x (by simp [hx]))
      have h1 : b64index (b64char (a / 4)) = some (a / 4) :=
        b64index_b64char _ (by omega)
      have h2 : b64index (b64char (a % 4 * 16 + b / 16)) = some (a % 4 * 16 + b / 16) :=
        b64index_b64char _ (by omega)
      have h3 : b64index (b64char (b % 16 * 4 + c / 64)) = some (b % 16 * 4 + c / 64) :=
        b64index_b64char _ (by omega)
      have h4 : b64index (b64char (c % 64)) = some (c % 64) :=
        b64index_b64char _ (by omega)
      have hne3 : ¬(b64char (b % 16 * 4 + c / 64) = '=') := b64char_ne_pad _
      have hne4 : ¬(b64char (c % 64) = '=') := b64char_ne_pad _
      simp only [b64encode, b64decode, h1, h2, h3, h4, hne3, hne4, if_false, ih]
      simp only [Option.some.injEq, List.cons.injEq]
      refine ⟨by omega, by omega, by omega, trivial⟩

/-- C9: `Stimulator.trigger` overwrites only the `trigger_ms` field of the
configuration read from the device; every other field of the written
configuration equals the value just read. -/
theorem C9_trigger_frame (d : StimDevice) (duration_ms : Int) :
    ((Stimulator_trigger d duration_ms).cfg.trigger_ms = duration_ms) ∧
    ((Stimulator_trigger d duration_ms).cfg.retain_cfg = (get_stim_config d).retain_cfg) ∧
    ((Stimulator_trigger d duration_ms).cfg.forward_us = (get_stim_config d).forward_us) ∧
    ((Stimulator_trigger d duration_ms).cfg.deadband_us = (get_stim_config d).deadband_us) ∧
    ((Stimulator_trigger d duration_ms).cfg.period_us = (get_stim_config d).period_us) ∧
    ((Stimulator_trigger d duration_ms).cfg.intensity_uA = (get_stim_config d).intensity_uA) :=
  ⟨rfl, rfl, rfl, rfl, rfl, rfl⟩

/-- C8 counterexample: calling `LoopRunner.terminate` a second time after a
completed first call does not leave the runner unchanged without error; it
raises `RuntimeError` because `call_soon_threadsafe` rejects the closed
loop. -/
theorem C8_counterexample :
    (LoopRunner_terminate { phase := LoopPhase.running }).bind LoopRunner_terminate
      = Except.error PyError.runtimeLoopClosed := rfl

/-- C8 amended: the first `terminate` on a started runner stops and closes
the loop; a second call raises `RuntimeError` (the loop is closed), so
`terminate` is not idempotent. -/
theorem C8_amended :
    LoopRunner_terminate { phase := LoopPhase.running }
        = Except.ok { phase := LoopPhase.closed } ∧
    LoopRunner_terminate { phase := LoopPhase.closed }
        = Except.error PyError.runtimeLoopClosed :=
  ⟨rfl, rfl⟩

/-- C6: evaluation of `VNSDevice.connect` at the failing input.  With
`retries = 2` and a first attempt that raises while the second would
succeed, `connect` surfaces the first error after a single attempt instead
of retrying; and when every attempt succeeds it still issues all `retries`
connect calls instead of stopping at the first success. -/
theorem C6_connect_behavior :
    VNSDevice_connect flakyAttempt 2 = Except.error (Exn.connectFailed 7) ∧
    connectCallsFrom flakyAttempt 0 2 = 1 ∧
    VNSDevice_connect (fun _ => Except.ok ()) 2 = Except.ok () ∧
    connectCallsFrom (fun _ => Except.ok ()) 0 2 = 2 :=
  ⟨rfl, rfl, rfl, rfl⟩

/-- C2 counterexample: a transport-successful response with body `OK:42`
parses to battery payload `2` and version payload `2`, not `42`: the code
drops the first four characters after the three-character `OK:` marker. -/
theorem C2_counterexample :
    (routine_get_battery devOK42).result = Except.ok (some 2) ∧
    (routine_get_battery devOK42).result ≠ Except.ok (some 42) ∧
    (routine_get_version devOK42).result = some (toL "2") ∧
    (routine_get_version devOK42).result ≠ some (toL "42") := by
  refine ⟨rfl, by decide, rfl, by decide⟩

/-- C2 amended: for every transport-successful response whose stripped body
carries the `OK:` marker, the parsing used by `routine_get_version` and
`routine_get_battery` returns the text after the first four characters of
the stripped body (the three-character `OK:` marker plus one separator
character), so `OK:42` yields `2` and `OK: 42` yields `42`. -/
theorem C2_amended (o : PyStr) (h : shell_ok (pyStrip o) = true) :
    (routine_get_version (Device.mk (fun _ => SMPResponse.ok o))).result
        = some ((pyStrip o).drop 4) ∧
    (routine_get_battery (Device.mk (fun _ => SMPResponse.ok o))).result
        = (match pyInt ((pyStrip o).drop 4) with
           | some n => Except.ok (some n)
           | none => Except.error Exn.valueError) := by
  constructor
  · simp [routine_get_version, h]
  · simp only [routine_get_battery, h, if_true]
    cases pyInt ((pyStrip o).drop 4) <;> rfl

/-- C2 witness: the amended statement evaluated at the body `OK:42`. -/
theorem C2_amended_witness :
    shell_ok (pyStrip (toL "OK:42")) = true ∧
    ((routine_get_version (Device.mk (fun _ => SMPResponse.ok (toL "OK:42")))).result
        = some ((pyStrip (toL "OK:42")).drop 4) ∧
     (routine_get_battery (Device.mk (fun _ => SMPResponse.ok (toL "OK:42")))).result
        = (match pyInt ((pyStrip (toL "OK:42")).drop 4) with
           | some n => Except.ok (some n)
           | none => Except.error Exn.valueError)) :=
  ⟨rfl, C2_amended (toL "OK:42") rfl⟩

lemma get_oob_key_issued (dev : Device) :
    (routine_get_oob_key dev).issued = [Request.execute [toL "bond", toL "get"]] := by
  unfold routine_get_oob_key
  cases hr : dev.respond (Request.execute [toL "bond", toL "get"]) with
  | ok o => by_cases h : shell_ok (pyStrip o) <;> simp [hr, h]
  | err rc => simp [hr]

lemma set_oob_key_issued (dev : Device) (key : PyStr) :
    (routine_set_oob_key dev key).issued
      = [Request.execute [toL "bond", toL "set", toL "vns", key]] := by
  unfold routine_set_oob_key
  cases hr : dev.respond (Request.execute [toL "bond", toL "set", toL "vns", key]) with
  | ok o => by_cases h : shell_ok (pyStrip o) <;> simp [hr, h]
  | err rc => simp [hr]

lemma get_oob_key_logs_of_some (dev : Device) (k : PyStr)
    (h : (routine_get_oob_key dev).result = some k) :
    (routine_get_oob_key dev).logs = [LogE.info (toL "Key received")] := by
  unfold routine_get_oob_key at h ⊢
  cases hr : dev.respond (Request.execute [toL "bond", toL "get"]) with
  | ok o =>
      by_cases hs : shell_ok (pyStrip o)
      · simp [hr, hs]
      · simp [hr, hs] at h
  | err rc => simp [hr] at h

lemma set_oob_key_no_opError (dev : Device) (key : PyStr) :
    ∀ m, LogE.opError m ∉ (routine_set_oob_key dev key).logs := by
  intro m
  unfold routine_set_oob_key
  cases hr : dev.respond (Request.execute [toL "bond", toL "set", toL "vns", key]) with
  | ok o => by_cases h : shell_ok (pyStrip o) <;> simp [hr, h]
  | err rc => simp [hr]

/-- C3: if fetching the OOB key from either device yields `None`, `pair`
issues no key-write request to either device, and the stored key material
of both devices (under the device convention that only served `bond
set`/`bond del` requests mutate it) is unchanged. -/
theorem C3_pair_aborts (dev1 dev2 : Device)
    (h : (routine_get_oob_key dev1).result = none ∨
         (routine_get_oob_key dev2).result = none) :
    (∀ r ∈ (pair dev1 dev2).issued1, isKeyWrite r = false) ∧
    (∀ r ∈ (pair dev1 dev2).issued2, isKeyWrite r = false) ∧
    (∀ k0 : Option PyStr, keyAfter dev1.respond k0 (pair dev1 dev2).issued1 = k0) ∧
    (∀ k0 : Option PyStr, keyAfter dev2.respond k0 (pair dev1 dev2).issued2 = k0) := by
  have habort : pair dev1 dev2 =
      { issued1 := (routine_get_oob_key dev1).issued
        issued2 := (routine_get_oob_key dev2).issued
        logs := (routine_get_oob_key dev1).logs ++ (routine_get_oob_key dev2).logs
                  ++ [LogE.opError (toL "Failed to get keys")] } := by
    simp only [pair]
    rcases h with h | h
    · rw [h]
    · rw [h]
      cases (routine_get_oob_key dev1).result <;> rfl
  rw [habort, get_oob_key_issued, get_oob_key_issued]
  refine ⟨?_, ?_, ?_, ?_⟩
  · intro r hr; simp at hr; subst hr; decide
  · intro r hr; simp at hr; subst hr; decide
  · intro k0; rfl
  · intro k0; rfl

/-- C3 witness: the theorem applied to a device whose key fetch fails at
the transport level paired with a device whose fetch succeeds. -/
theorem C3_pair_aborts_witness :
    ((routine_get_oob_key devErr).result = none ∨
     (routine_get_oob_key devKey2).result = none) ∧
    ((∀ r ∈ (pair devErr devKey2).issued1, isKeyWrite r = false) ∧
     (∀ r ∈ (pair devErr devKey2).issued2, isKeyWrite r = false) ∧
     (∀ k0 : Option PyStr, keyAfter devErr.respond k0 (pair devErr devKey2).issued1 = k0) ∧
     (∀ k0 : Option PyStr, keyAfter devKey2.respond k0 (pair devErr devKey2).issued2 = k0)) :=
  ⟨Or.inl rfl, C3_pair_aborts devErr devKey2 (Or.inl rfl)⟩

/-- C10: when both key fetches succeed, `pair` always reaches the exchange
phase and finishes with no error reported to the caller: both cross
key-writes are issued, the `Failed to get keys` abort is never logged, and
the boolean results of the two writes are discarded (the devices respond to
the writes arbitrarily, yet the outcome shape is the same). -/
theorem C10_pair_discards_write_failures (dev1 dev2 : Device) (k1 k2 : PyStr)
    (h1 : (routine_get_oob_key dev1).result = some k1)
    (h2 : (routine_get_oob_key dev2).result = some k2) :
    (pair dev1 dev2).issued1
        = [Request.execute [toL "bond", toL "get"],
           Request.execute [toL "bond", toL "set", toL "vns", k2]] ∧
    (pair dev1 dev2).issued2
        = [Request.execute [toL "bond", toL "get"],
           Request.execute [toL "bond", toL "set", toL "vns", k1]] ∧
    LogE.opError (toL "Failed to get keys") ∉ (pair dev1 dev2).logs := by
  have hx : pair dev1 dev2 =
      { issued1 := (routine_get_oob_key dev1).issued ++ (routine_set_oob_key dev1 k2).issued
        issued2 := (routine_get_oob_key dev2).issued ++ (routine_set_oob_key dev2 k1).issued
        logs := (routine_get_oob_key dev1).logs ++ (routine_get_oob_key dev2).logs
                  ++ (routine_set_oob_key dev1 k2).logs ++ (routine_set_oob_key dev2 k1).logs } := by
    simp only [pair]
    rw [h1, h2]
  rw [hx]
  refine ⟨by simp [get_oob_key_issued, set_oob_key_issued],
          by simp [get_oob_key_issued, set_oob_key_issued], ?_⟩
  intro hmem
  simp only [List.mem_append] at hmem
  rcases hmem with ((hm | hm) | hm) | hm
  · rw [get_oob_key_logs_of_some dev1 k1 h1] at hm; simp at hm
  · rw [get_oob_key_logs_of_some dev2 k2 h2] at hm; simp at hm
  · exact set_oob_key_no_opError dev1 k2 _ hm
  · exact set_oob_key_no_opError dev2 k1 _ hm

/-- C10 witness: the theorem applied to two concrete devices holding keys
`KEY1` and `KEY2`. -/
theorem C10_pair_discards_witness :
    ((routine_get_oob_key devKey1).result = some (toL "KEY1")) ∧
    ((routine_get_oob_key devKey2).result = some (toL "KEY2")) ∧
    ((pair devKey1 devKey2).issued1
        = [Request.execute [toL "bond", toL "get"],
           Request.execute [toL "bond", toL "set", toL "vns", toL "KEY2"]] ∧
     (pair devKey1 devKey2).issued2
        = [Request.execute [toL "bond", toL "get"],
           Request.execute [toL "bond", toL "set", toL "vns", toL "KEY1"]] ∧
     LogE.opError (toL "Failed to get keys") ∉ (pair devKey1 devKey2).logs) :=
  ⟨rfl, rfl, C10_pair_discards_write_failures devKey1 devKey2 (toL "KEY1") (toL "KEY2") rfl rfl⟩

/-- C5: for `routine_set_config`, `routine_set_oob_key` and
`routine_get_config`, a transport success whose body lacks the `OK:`
marker is reported as an application-level failure (`False` / `None`) with
an application-error log carrying the body text, distinct from the
transport-error log used when the request itself fails; and a success
result is reported exactly when the transport succeeded and the stripped
body carries the `OK:` marker. -/
theorem C5_two_layer_results (dev : Device) (cfg_type key : PyStr) (serialized : List Nat) :
    ((routine_set_config dev cfg_type serialized).result = true
        ↔ ∃ o, dev.respond (Request.execute [toL "cfg", toL "set", cfg_type, b64encode serialized])
              = SMPResponse.ok o ∧ shell_ok (pyStrip o) = true) ∧
    (∀ o, dev.respond (Request.execute [toL "cfg", toL "set", cfg_type, b64encode serialized])
            = SMPResponse.ok o → shell_ok (pyStrip o) = false →
        (routine_set_config dev cfg_type serialized).result = false ∧
        (routine_set_config dev cfg_type serialized).logs = [LogE.appError (pyStrip o)]) ∧
    (∀ rc, dev.respond (Request.execute [toL "cfg", toL "set", cfg_type, b64encode serialized])
            = SMPResponse.err rc →
        (routine_set_config dev cfg_type serialized).result = false ∧
        (routine_set_config dev cfg_type serialized).logs = [LogE.transportError rc]) ∧
    ((routine_set_oob_key dev key).result = true
        ↔ ∃ o, dev.respond (Request.execute [toL "bond", toL "set", toL "vns", key])
              = SMPResponse.ok o ∧ shell_ok (pyStrip o) = true) ∧
    (∀ o, dev.respond (Request.execute [toL "bond", toL "set", toL "vns", key])
            = SMPResponse.ok o → shell_ok (pyStrip o) = false →
        (routine_set_oob_key dev key).result = false ∧
        (routine_set_oob_key dev key).logs = [LogE.appError (pyStrip o)]) ∧
    (∀ v, (routine_get_config dev cfg_type).result = Except.ok (some v) →
        ∃ o, dev.respond (Request.execute [toL "cfg", toL "get", cfg_type])
              = SMPResponse.ok o ∧ shell_ok (pyStrip o) = true) ∧
    (∀ o, dev.respond (Request.execute [toL "cfg", toL "get", cfg_type])
            = SMPResponse.ok o → shell_ok (pyStrip o) = false →
        (routine_get_config dev cfg_type).result = Except.ok none ∧
        (routine_get_config dev cfg_type).logs = [LogE.appError (pyStrip o)]) := by
  refine ⟨?_, ?_, ?_, ?_, ?_, ?_, ?_⟩
  · cases hr : dev.respond (Request.execute [toL "cfg", toL "set", cfg_type, b64encode serialized]) with
    | ok o => by_cases hs : shell_ok (pyStrip o) <;> simp [routine_set_config, hr, hs]
    | err rc => simp [routine_set_config, hr]
  · intro o ho hs
    simp [routine_set_config, ho, hs]
  · intro rc hrc
    simp [routine_set_config, hrc]
  · cases hr : dev.respond (Request.execute [toL "bond", toL "set", toL "vns", key]) with
    | ok o => by_cases hs : shell_ok (pyStrip o) <;> simp [routine_set_oob_key, hr, hs]
    | err rc => simp [routine_set_oob_key, hr]
  · intro o ho hs
    simp [routine_set_oob_key, ho, hs]
  · intro v hv
    cases hr : dev.respond (Request.execute [toL "cfg", toL "get", cfg_type]) with
    | ok o =>
        by_cases hs : shell_ok (pyStrip o)
        · exact ⟨o, rfl, hs⟩
        · simp [routine_get_config, hr, hs] at hv
    | err rc => simp [routine_get_config, hr] at hv
  · intro o ho hs
    simp [routine_get_config, ho, hs]

/-- C5 witness: the theorem applied to a device answering `ERR bad arg` on
a successful transport, and to a device failing at the transport level. -/
theorem C5_two_layer_witness :
    ((routine_set_config devErrBody (toL "sys") [1]).result = false ∧
     (routine_set_config devErrBody (toL "sys") [1]).logs
        = [LogE.appError (toL "ERR bad arg")]) ∧
    ((routine_set_oob_key devErrBody (toL "k")).result = false ∧
     (routine_set_oob_key devErrBody (toL "k")).logs
        = [LogE.appError (toL "ERR bad arg")]) ∧
    ((routine_get_config devErrBody (toL "sys")).result = Except.ok none ∧
     (routine_get_config devErrBody (toL "sys")).logs
        = [LogE.appError (toL "ERR bad arg")]) ∧
    ((routine_set_config devErr (toL "sys") [1]).result = false ∧
     (routine_set_config devErr (toL "sys") [1]).logs = [LogE.transportError 3]) := by
  have h1 := C5_two_layer_results devErrBody (toL "sys") (toL "k") [1]
  have h2 := C5_two_layer_results devErr (toL "sys") (toL "k") [1]
  exact ⟨h1.2.1 (toL "ERR bad arg") rfl rfl,
         h1.2.2.2.2.1 (toL "ERR bad arg") rfl rfl,
         h1.2.2.2.2.2.2 (toL "ERR bad arg") rfl rfl,
         h2.2.2.1 3 rfl⟩

/-- C7: the DFU trace pauses exactly once for the whole batch, between the
application-phase commands (connect, enter-bootloader, reboot for each
device) and the bootloader phase; its length is six per-device operations
plus the single pause, and no upload event is issued before the pause,
while after it every device is reconnected, uploaded to, and rebooted. -/
theorem C7_dfu_phase_order (ports : List PyStr) (image : List Nat) :
    (dfuTrace ports image).countP isSleepEv = 1 ∧
    (dfuTrace ports image).length = 6 * ports.length + 1 ∧
    dfuTrace ports image
      = ((ports.map DfuEv.connect) ++ (ports.map (fun p => DfuEv.shellCmd p (toL "dfu")))
          ++ (ports.map DfuEv.reboot))
        ++ DfuEv.sleepSec 5 ::
          ((ports.map DfuEv.connect) ++ (ports.map (fun p => DfuEv.uploadTo p image))
            ++ (ports.map DfuEv.reboot)) ∧
    (∀ e ∈ (ports.map DfuEv.connect) ++ (ports.map (fun p => DfuEv.shellCmd p (toL "dfu")))
             ++ (ports.map DfuEv.reboot),
        isUploadEv e = false ∧ isSleepEv e = false) ∧
    (∀ p ∈ ports,
        DfuEv.uploadTo p image
          ∈ (ports.map DfuEv.connect) ++ (ports.map (fun p => DfuEv.uploadTo p image))
              ++ (ports.map DfuEv.reboot)) := by
  have hpre : ∀ e ∈ (ports.map DfuEv.connect) ++ (ports.map (fun p => DfuEv.shellCmd p (toL "dfu")))
      ++ (ports.map DfuEv.reboot), isUploadEv e = false ∧ isSleepEv e = false := by
    intro e he
    simp only [List.mem_append, List.mem_map] at he
    rcases he with (⟨p, _, rfl⟩ | ⟨p, _, rfl⟩) | ⟨p, _, rfl⟩ <;> exact ⟨rfl, rfl⟩
  have hpost : ∀ e ∈ (ports.map DfuEv.connect) ++ (ports.map (fun p => DfuEv.uploadTo p image))
      ++ (ports.map DfuEv.reboot), isSleepEv e = false := by
    intro e he
    simp only [List.mem_append, List.mem_map] at he
    rcases he with (⟨p, _, rfl⟩ | ⟨p, _, rfl⟩) | ⟨p, _, rfl⟩ <;> exact rfl
  have hstruct : dfuTrace ports image
      = ((ports.map DfuEv.connect) ++ (ports.map (fun p => DfuEv.shellCmd p (toL "dfu")))
          ++ (ports.map DfuEv.reboot))
        ++ DfuEv.sleepSec 5 ::
          ((ports.map DfuEv.connect) ++ (ports.map (fun p => DfuEv.uploadTo p image))
            ++ (ports.map DfuEv.reboot)) := by
    simp [dfuTrace, List.append_assoc]
  refine ⟨?_, ?_, hstruct, hpre, ?_⟩
  · rw [hstruct, List.countP_append, List.countP_cons]
    have h0 : List.countP isSleepEv ((ports.map DfuEv.connect)
        ++ (ports.map (fun p => DfuEv.shellCmd p (toL "dfu"))) ++ (ports.map DfuEv.reboot)) = 0 :=
      List.countP_eq_zero.mpr (fun e he => by simp [(hpre e he).2])
    have h1 : List.countP isSleepEv ((ports.map DfuEv.connect)
        ++ (ports.map (fun p => DfuEv.uploadTo p image)) ++ (ports.map DfuEv.reboot)) = 0 :=
      List.countP_eq_zero.mpr (fun e he => by simp [hpost e he])
    rw [h0, h1]
    rfl
  · rw [hstruct]
    simp only [List.length_append, List.length_cons, List.length_map]
    ring
  · intro p hp
    simp only [List.mem_append, List.mem_map]
    exact Or.inl (Or.inr ⟨p, hp, rfl⟩)

lemma gatherE_all_ok {ε α : Type} (l : List (Except ε α))
    (h : ∀ x ∈ l, ∃ a, x = Except.ok a) :
    ∃ ys, gatherE l = Except.ok ys ∧ ys.length = l.length ∧
      ∀ i (h1 : i < l.length) (h2 : i < ys.length),
        l.get ⟨i, h1⟩ = Except.ok (ys.get ⟨i, h2⟩) := by
  induction l with
  | nil =>
      exact ⟨[], rfl, rfl, by intro i h1 _; exact absurd h1 (Nat.not_lt_zero i)⟩
  | cons x xs ih =>
      obtain ⟨a, rfl⟩ := h x (by simp)
      obtain ⟨ys, hg, hlen, hidx⟩ := ih (fun y hy => h y (by simp [hy]))
      refine ⟨a :: ys, by simp [gatherE, hg], by simp [hlen], ?_⟩
      intro i h1 h2
      cases i with
      | zero => rfl
      | succ j => exact hidx j (by simpa using h1) (by simpa using h2)

/-- C1 counterexample: a single device that fails to connect makes
`get_battery` and `get_version` propagate the connect exception, so no
result list (of any length) is returned, although the claim promises a
per-device result list regardless of which devices fail. -/
theorem C1_counterexample :
    get_battery envConnFail [toL "p0"] = Except.error (Exn.connectFailed 2) ∧
    get_version envConnFail [toL "p0"] = Except.error (Exn.connectFailed 2) ∧
    (∀ rs : List (Option Int), get_battery envConnFail [toL "p0"] ≠ Except.ok rs) ∧
    (∀ rs : List (Option PyStr), get_version envConnFail [toL "p0"] ≠ Except.ok rs) := by
  refine ⟨rfl, rfl, ?_, ?_⟩ <;> intro rs h <;> cases h

/-- C1 amended: provided every device on the list connects successfully
and every per-device battery routine completes without raising (its `int()`
payload conversion succeeds or the routine returns `None`), `get_battery`
and `get_version` return a list with one slot per address, the i-th slot
holding the outcome of the routine against the i-th address, application
failures appearing as `None` in their slot. -/
theorem C1_fanout_order (env : PyStr → PortDevice) (ports : List PyStr)
    (hc : ∀ p ∈ ports, (env p).connectResult = Except.ok ())
    (hb : ∀ p ∈ ports, ∃ v, (routine_get_battery (env p).dev).result = Except.ok v) :
    (∃ rb, get_battery env ports = Except.ok rb ∧ rb.length = ports.length ∧
      ∀ i (h1 : i < ports.length) (h2 : i < rb.length),
        (routine_get_battery (env (ports.get ⟨i, h1⟩)).dev).result
          = Except.ok (rb.get ⟨i, h2⟩)) ∧
    (∃ rv, get_version env ports = Except.ok rv ∧ rv.length = ports.length ∧
      ∀ i (h1 : i < ports.length) (h2 : i < rv.length),
        (routine_get_version (env (ports.get ⟨i, h1⟩)).dev).result = rv.get ⟨i, h2⟩) := by
  obtain ⟨cs, hcs, _, _⟩ :=
    gatherE_all_ok (ports.map (fun p => (env p).connectResult))
      (by
        intro x hx
        simp only [List.mem_map] at hx
        obtain ⟨p, hp, rfl⟩ := hx
        exact ⟨(), hc p hp⟩)
  constructor
  · obtain ⟨rb, hrb, hlen, hidx⟩ :=
      gatherE_all_ok (ports.map (fun p => (routine_get_battery (env p).dev).result))
        (by
          intro x hx
          simp only [List.mem_map] at hx
          obtain ⟨p, hp, rfl⟩ := hx
          exact hb p hp)
    refine ⟨rb, ?_, by simpa using hlen, ?_⟩
    · unfold get_battery
      rw [hcs, hrb]
    · intro i h1 h2
      have h1m : i < (ports.map (fun p => (routine_get_battery (env p).dev).result)).length := by
        simpa using h1
      have := hidx i h1m (by omega)
      rwa [List.get_map] at this
  · refine ⟨ports.map (fun p => (routine_get_version (env p).dev).result), ?_, by simp, ?_⟩
    · unfold get_version
      rw [hcs]
    · intro i h1 h2
      rw [List.get_map]

/-- C1 witness: the amended statement evaluated on a two-port environment
in which both devices connect and one of them reports an application-level
failure (`None` slot). -/
theorem C1_fanout_witness :
    (∀ p ∈ [toL "p0", toL "p1"], (envTwo p).connectResult = Except.ok ()) ∧
    (∀ p ∈ [toL "p0", toL "p1"],
        ∃ v, (routine_get_battery (envTwo p).dev).result = Except.ok v) ∧
    ((∃ rb, get_battery envTwo [toL "p0", toL "p1"] = Except.ok rb ∧
        rb.length = [toL "p0", toL "p1"].length ∧
        ∀ i (h1 : i < [toL "p0", toL "p1"].length) (h2 : i < rb.length),
          (routine_get_battery (envTwo ([toL "p0", toL "p1"].get ⟨i, h1⟩)).dev).result
            = Except.ok (rb.get ⟨i, h2⟩)) ∧
     (∃ rv, get_version envTwo [toL "p0", toL "p1"] = Except.ok rv ∧
        rv.length = [toL "p0", toL "p1"].length ∧
        ∀ i (h1 : i < [toL "p0", toL "p1"].length) (h2 : i < rv.length),
          (routine_get_version (envTwo ([toL "p0", toL "p1"].get ⟨i, h1⟩)).dev).result
            = rv.get ⟨i, h2⟩)) := by
  refine ⟨?_, ?_, C1_fanout_order envTwo [toL "p0", toL "p1"] ?_ ?_⟩
  · decide
  · intro p hp
    fin_cases hp
    · exact ⟨some 2, rfl⟩
    · exact ⟨none, rfl⟩
  · decide
  · intro p hp
    fin_cases hp
    · exact ⟨some 2, rfl⟩
    · exact ⟨none, rfl⟩

lemma pyStrip_okSep (e : PyStr) (he : ∀ c ∈ e, isPySpace c = false) (hne : e ≠ []) :
    pyStrip (toL "OK: " ++ e) = toL "OK: " ++ e := by
  obtain ⟨c, t, hct⟩ : ∃ c t, e.reverse = c :: t := by
    cases hrev : e.reverse with
    | nil => exact absurd (List.reverse_eq_nil_iff.mp hrev) hne
    | cons c t => exact ⟨c, t, rfl⟩
  have hc : c ∈ e := by
    rw [← List.mem_reverse, hct]
    exact List.mem_cons_self c t
  have hO : isPySpace 'O' = false := rfl
  have h1 : (toL "OK: " ++ e).dropWhile isPySpace = toL "OK: " ++ e := by
    show List.dropWhile isPySpace ('O' :: (toL "K: " ++ e)) = 'O' :: (toL "K: " ++ e)
    simp [List.dropWhile_cons, hO]
  have h2 : (toL "OK: " ++ e).reverse = c :: (t ++ (toL "OK: ").reverse) := by
    rw [List.reverse_append, hct, List.cons_append]
  have h3 : (c :: (t ++ (toL "OK: ").reverse)).dropWhile isPySpace
      = c :: (t ++ (toL "OK: ").reverse) := by
    simp [List.dropWhile_cons, he c hc]
  unfold pyStrip
  rw [h1, h2, h3, ← h2, List.reverse_reverse]

/-- C4 counterexample: with the response form stated in the claim (the
`OK:` marker immediately followed by the base64 text), the read-back of the
one-byte payload `[1]` does not reproduce the bytes: the strip of the
first four characters consumes the first base64 character, and the decode
of the remainder raises `binascii.Error` instead of returning the
payload. -/
theorem C4_counterexample :
    (routine_get_config
        (Device.mk (fun _ => SMPResponse.ok (toL "OK:" ++ b64encode [1]))) (toL "sys")).result
      = Except.error Exn.binasciiError ∧
    (routine_get_config
        (Device.mk (fun _ => SMPResponse.ok (toL "OK:" ++ b64encode [1]))) (toL "sys")).result
      ≠ Except.ok (some [1]) := by
  exact ⟨rfl, by decide⟩

/-- C4 amended: `routine_set_config` transmits exactly the base64 encoding
of the serialized payload, and for every device response of the form the
code actually expects — the `OK:` marker, one separator character, then the
base64 text — `routine_get_config` reproduces exactly the original
serialized bytes. -/
theorem C4_roundtrip (cfg_type : PyStr) (serialized : List Nat)
    (h : ∀ b ∈ serialized, b < 256) :
    (routine_set_config devAck cfg_type serialized).issued
        = [Request.execute [toL "cfg", toL "set", cfg_type, b64encode serialized]] ∧
    (routine_get_config
        (Device.mk (fun _ => SMPResponse.ok (toL "OK: " ++ b64encode serialized)))
        cfg_type).result
      = Except.ok (some serialized) := by
  constructor
  · have hd : shell_ok (pyStrip (toL "OK: done")) = true := rfl
    simp [routine_set_config, devAck, hd]
  · by_cases hne : b64encode serialized = []
    · have hser : serialized = [] := by
        cases serialized with
        | nil => rfl
        | cons a t =>
            cases t with
            | nil => simp [b64encode] at hne
            | cons b t2 => cases t2 <;> simp [b64encode] at hne
      subst hser
      rfl
    · have hstrip := pyStrip_okSep (b64encode serialized)
        (b64encode_not_space serialized) hne
      have hok : shell_ok (toL "OK: " ++ b64encode serialized) = true := rfl
      have hdrop : (toL "OK: " ++ b64encode serialized).drop 4 = b64encode serialized := rfl
      simp only [routine_get_config, hstrip, hok, if_true, hdrop,
        b64_roundtrip serialized h]

/-- C4 witness: the amended statement evaluated at the one-byte payload
`[1]` (base64 text `AQ==`). -/
theorem C4_roundtrip_witness :
    (∀ b ∈ [1], b < 256) ∧
    ((routine_set_config devAck (toL "sys") [1]).issued
        = [Request.execute [toL "cfg", toL "set", toL "sys", b64encode [1]]] ∧
     (routine_get_config
        (Device.mk (fun _ => SMPResponse.ok (toL "OK: " ++ b64encode [1])))
        (toL "sys")).result
      = Except.ok (some [1])) :=
  ⟨by decide, C4_roundtrip (toL "sys") [1] (by decide)⟩
